import Mathlib

/-!
Verification of the tistory image downloader (src/app.py).

The development shallowly embeds the program: pure helpers of app.py become
Lean functions on String and List Char; the filesystem effects of the
download path (the JSON cache file and the image files written) become an
explicit state record, and the network becomes an oracle record so that
theorems can quantify over every possible fetch outcome.  Python exceptions
become explicit outcome values: the except clause of download_images
catches only requests.exceptions.RequestException, so urllib errors from
urlretrieve, AttributeError from a figure without a data-url span, and
IndexError from extract_index_from_url are modelled as a raised outcome
that propagates to the caller.
-/

namespace TistoryDl

/-- listStartsWith pat l is true when pat is a prefix of l. -/
def listStartsWith : List Char → List Char → Bool
  | [], _ => true
  | _ :: _, [] => false
  | p :: ps, c :: cs => p = c && listStartsWith ps cs

/-- strEndsWith s t is true when the string s ends with t. -/
def strEndsWith (s t : String) : Bool :=
  listStartsWith t.data.reverse s.data.reverse

/-- Model of the Python str.rstrip with a single strip character: removes
every trailing occurrence of c. -/
def pyRstrip (c : Char) (s : String) : String :=
  String.mk (s.data.reverse.dropWhile (fun x => x = c)).reverse

/-- Model of re.search(r'/rss$', s) viewed as a Boolean: without MULTILINE
the anchor matches at the end of the string or just before a single
newline that ends the string, so the pattern matches exactly when s ends
with "/rss" or with "/rss\n". -/
def reSearchRssDollar (s : String) : Bool :=
  strEndsWith s "/rss" || strEndsWith s "/rss\n"

/-- complete_rss_url from app.py: if re.search(r'/rss$', url) fails,
return url.rstrip('/') + '/rss', else return url unchanged. -/
def complete_rss_url (url : String) : String :=
  if reSearchRssDollar url then url else pyRstrip '/' url ++ "/rss"

/-!
The cache file downloaded_posts.json is modelled as an
Option (List String): none is an absent file (open raises
FileNotFoundError) and some posts is a file whose JSON parses to the list
posts.
-/

/-- is_post_downloaded from app.py: reading the cache file, a missing file
is caught (FileNotFoundError) and yields False, otherwise the answer is
membership of url in the decoded list. -/
def is_post_downloaded (cache : Option (List String)) (url : String) : Bool :=
  match cache with
  | some downloaded_posts => downloaded_posts.contains url
  | none => false

/-- update_cache from app.py, as the new content of the cache file: the
current list (empty when the file is missing) with url appended, which is
then written back in full. -/
def update_cache (cache : Option (List String)) (url : String) : List String :=
  (cache.getD []) ++ [url]

lemma listStartsWith_append_self (p q : List Char) :
    listStartsWith p (p ++ q) = true := by
  induction p with
  | nil => rfl
  | cons c cs ih => simp [listStartsWith, ih]

lemma strEndsWith_append (x t : String) :
    strEndsWith (x ++ t) t = true := by
  unfold strEndsWith
  rw [String.data_append, List.reverse_append]
  exact listStartsWith_append_self t.data.reverse x.data.reverse

/-- Claim C8: is_post_downloaded returns true exactly when the cache file
exists and its JSON array contains the URL, and a missing cache file gives
false rather than an error. -/
theorem c8_cache_membership (cache : Option (List String)) (url : String) :
    (is_post_downloaded cache url = true ↔
      ∃ posts, cache = some posts ∧ url ∈ posts)
    ∧ is_post_downloaded none url = false := by
  constructor
  · cases cache with
    | none => simp [is_post_downloaded]
    | some posts => simp [is_post_downloaded, List.contains, List.elem_iff]
  · rfl

/-- Witness for C8 at a concrete cache and URL. -/
theorem c8_cache_membership_witness :
    is_post_downloaded (some ["https://blog.example/1"]) "https://blog.example/1" = true :=
  (c8_cache_membership (some ["https://blog.example/1"]) "https://blog.example/1").1.mpr
    ⟨["https://blog.example/1"], rfl, by simp⟩

/-- Claim C6 counterexample: an input that ends in "/rss" followed by one
final newline is matched by re.search(r'/rss$', ...) and therefore returned
unchanged, so the result does not end with the suffix "/rss" even though
the input did not end with it either: the claim fails as a statement about
every input string. -/
theorem c6_counterexample :
    strEndsWith "https://blog.example/rss\n" "/rss" = false
    ∧ complete_rss_url "https://blog.example/rss\n" = "https://blog.example/rss\n"
    ∧ strEndsWith (complete_rss_url "https://blog.example/rss\n") "/rss" = false := by
  refine ⟨rfl, ?_, ?_⟩ <;> decide

/-- Claim C6 amended: complete_rss_url is a no-op on inputs already ending
in "/rss"; on inputs not matched by the regex /rss$ it strips trailing
slashes and appends "/rss" exactly once, and the result then ends in
"/rss"; the result is guaranteed to end in "/rss" for every input except
those ending in the five characters "/rss" plus newline, which the regex
anchor also matches and which are returned unchanged. -/
theorem c6_normalizer (url : String) :
    (strEndsWith url "/rss" = true → complete_rss_url url = url)
    ∧ (reSearchRssDollar url = false →
        complete_rss_url url = pyRstrip '/' url ++ "/rss"
        ∧ strEndsWith (complete_rss_url url) "/rss" = true)
    ∧ (strEndsWith url "/rss\n" = false →
        strEndsWith (complete_rss_url url) "/rss" = true) := by
  refine ⟨?_, ?_, ?_⟩
  · intro h
    unfold complete_rss_url reSearchRssDollar
    rw [h]
    simp
  · intro h
    unfold complete_rss_url
    rw [h]
    exact ⟨rfl, by simp [strEndsWith_append]⟩
  · intro h
    by_cases hr : reSearchRssDollar url = true
    · have hends : strEndsWith url "/rss" = true := by
        unfold reSearchRssDollar at hr
        rcases Bool.or_eq_true_iff.mp hr with h1 | h2
        · exact h1
        · rw [h2] at h; cases h
      unfold complete_rss_url
      rw [hr]
      simpa using hends
    · have hr' : reSearchRssDollar url = false := by
        cases hrv : reSearchRssDollar url
        · rfl
        · exact absurd hrv hr
      unfold complete_rss_url
      rw [hr']
      simp [strEndsWith_append]

/-- Witness for C6 amended: a URL already carrying the suffix is unchanged
and one without it gets the suffix appended after stripping the trailing
slash. -/
theorem c6_normalizer_witness :
    complete_rss_url "https://blog.example/rss" = "https://blog.example/rss"
    ∧ complete_rss_url "https://blog.example/" = "https://blog.example/rss" :=
  ⟨(c6_normalizer "https://blog.example/rss").1 (by decide),
   ((c6_normalizer "https://blog.example/").2.1 (by decide)).1.trans (by decide)⟩

/-!
Datetimes.  datetime.strptime with the feed format "%a, %d %b %Y %H:%M:%S %z"
produces an aware datetime: broken-down wall-clock fields plus a fixed UTC
offset.  A PyDateTime carries exactly that.  Comparison of aware datetimes
in Python compares the instants they denote, i.e. wall-clock seconds minus
the offset; toEpoch computes that instant using the standard
days-from-civil-date formula.
-/

structure PyDateTime where
  year : Nat
  month : Nat
  day : Nat
  hour : Nat
  minute : Nat
  second : Nat
  utcOffset : Int
  deriving DecidableEq, Repr

/-- Days from 1970-01-01 of a civil date (proleptic Gregorian), the
standard era-based formula with truncating integer division. -/
def daysFromCivil (y m d : Int) : Int :=
  let y2 := if m ≤ 2 then y - 1 else y
  let era := (if 0 ≤ y2 then y2 else y2 - 399) / 400
  let yoe := y2 - era * 400
  let mp := (m + 9) % 12
  let doy := (153 * mp + 2) / 5 + (d - 1)
  let doe := yoe * 365 + yoe / 4 - yoe / 100 + doy
  era * 146097 + doe - 719468

/-- The instant a PyDateTime denotes, in seconds since the epoch: the wall
clock read as UTC, minus the UTC offset baked into the value. -/
def PyDateTime.toEpoch (t : PyDateTime) : Int :=
  86400 * daysFromCivil t.year t.month t.day
    + 3600 * t.hour + 60 * t.minute + t.second - t.utcOffset

/-- Model of d.replace(tzinfo=pytz.UTC): the wall-clock fields are kept and
the offset is overwritten with zero.  This relabels the value, it does not
convert it to UTC. -/
def replaceTzUTC (t : PyDateTime) : PyDateTime := { t with utcOffset := 0 }

/-- One feed entry as feedparser presents it to app.py: a link and the
published timestamp (already parsed into its wall-clock fields and
offset). -/
structure Entry where
  link : String
  published : PyDateTime
  deriving DecidableEq, Repr

/-- One element of the items_info list built by extract_info_from_rss. -/
structure Item where
  url : String
  date : PyDateTime
  deriving DecidableEq, Repr

/-- A parsed filter argument (the -f flag), the result of a successful
datetime.strptime(filter_date, "%Y/%m/%d"). -/
structure FilterDate where
  fy : Nat
  fm : Nat
  fd : Nat
  deriving DecidableEq, Repr

/-- strptime of the filter string: midnight of the given civil date, naive;
the subsequent .replace(tzinfo=pytz.UTC) sets the offset to zero. -/
def strptimeFilterDate (f : FilterDate) : PyDateTime :=
  ⟨f.fy, f.fm, f.fd, 0, 0, 0, 0⟩

/-- Python comparison a < b on aware datetimes: the instants compare. -/
def pyDtLt (a b : PyDateTime) : Bool := decide (a.toEpoch < b.toEpoch)

/-- The dict built for one entry on line 34 of app.py: the link together
with the published datetime after .replace(tzinfo=pytz.UTC). -/
def entryToItem (e : Entry) : Item := ⟨e.link, replaceTzUTC e.published⟩

/-- The guard of the list comprehension on line 34: keep the entry when no
filter was supplied, else when the relabelled published datetime is
strictly after the filter datetime. -/
def keepEntry (filter_datetime : Option PyDateTime) (e : Entry) : Bool :=
  match filter_datetime with
  | none => true
  | some f => pyDtLt f (replaceTzUTC e.published)

/-- The comparison used to model sorted(key=lambda x: x['date'],
reverse=True): a stable sort that puts a before b when the date of a is
greater than or equal to the date of b. -/
def itemDescBy (a b : Item) : Bool := decide (b.date.toEpoch ≤ a.date.toEpoch)

/-- extract_info_from_rss from app.py, taking the already-parsed feed
entries: build the filter datetime when a filter string was given, keep
the entries strictly after it (all of them when no filter), pair each link
with its relabelled published datetime, and sort by date newest first. -/
def extract_info_from_rss (entries : List Entry) (filter_date : Option FilterDate) : List Item :=
  let filter_datetime := filter_date.map strptimeFilterDate
  let items_info := (entries.filter (keepEntry filter_datetime)).map entryToItem
  items_info.mergeSort itemDescBy

/-- Claim C3: with a cutoff, the returned list is exactly (as a multiset,
since sorting reorders it) the entries whose processed publish timestamp
is strictly after the cutoff, mapped to items; entries at or before the
cutoff are dropped.  With no cutoff no entry is discarded. -/
theorem c3_filter_strictly_after (entries : List Entry) :
    (∀ f : FilterDate,
      (extract_info_from_rss entries (some f)).Perm
        ((entries.filter (fun e =>
          decide ((strptimeFilterDate f).toEpoch < (replaceTzUTC e.published).toEpoch))).map
            entryToItem))
    ∧ (extract_info_from_rss entries none).Perm (entries.map entryToItem) := by
  constructor
  · intro f
    have h := List.mergeSort_perm
      ((entries.filter (keepEntry (some (strptimeFilterDate f)))).map entryToItem) itemDescBy
    simpa [extract_info_from_rss, keepEntry, pyDtLt] using h
  · have hk : entries.filter (keepEntry none) = entries :=
      List.filter_eq_self.mpr (fun a _ => rfl)
    have h := List.mergeSort_perm
      ((entries.filter (keepEntry none)).map entryToItem) itemDescBy
    rw [hk] at h
    simpa [extract_info_from_rss, keepEntry, hk] using h

/-- Claim C4: the list returned by extract_info_from_rss is sorted in
descending order of the date field; in particular every adjacent pair has
the earlier item at least as late as the later one. -/
theorem c4_sorted_descending (entries : List Entry) (filter_date : Option FilterDate) :
    List.Chain' (fun a b : Item => b.date.toEpoch ≤ a.date.toEpoch)
      (extract_info_from_rss entries filter_date) := by
  have hp : List.Pairwise (fun a b => itemDescBy a b = true)
      ((((entries.filter
        (keepEntry (filter_date.map strptimeFilterDate))).map entryToItem).mergeSort itemDescBy)) :=
    List.sorted_mergeSort
      (fun a b c h1 h2 => by
        simp only [itemDescBy, decide_eq_true_eq] at h1 h2 ⊢
        omega)
      (fun a b => by
        simp only [itemDescBy, Bool.or_eq_true, decide_eq_true_eq]
        omega)
      _
  have hp' := hp.imp (fun h => by
    simpa only [itemDescBy, decide_eq_true_eq] using h)
  exact hp'.chain'

/-- Claim C5 counterexample: an entry published at wall clock 2024-01-01
12:00:00 with offset +09:00 (32400 seconds) denotes the instant 03:00 UTC,
but the date stored by extract_info_from_rss keeps the 12:00 wall clock and
merely relabels it UTC, so the stored timestamp is a different instant
from the published one: replace(tzinfo=UTC) is not a conversion to UTC. -/
theorem c5_counterexample :
    (entryToItem ⟨"https://blog.example/9", ⟨2024, 1, 1, 12, 0, 0, 32400⟩⟩).date.toEpoch
      ≠ (⟨2024, 1, 1, 12, 0, 0, 32400⟩ : PyDateTime).toEpoch := by
  decide

/-- Claim C5 amended: the timestamp paired with each link keeps the
published wall-clock fields unchanged and overwrites the timezone with
UTC (offset zero); consequently its instant differs from the published
instant by exactly the published UTC offset, so only entries already
published at offset zero keep the same instant. -/
theorem c5_relabel_not_convert (e : Entry) :
    (entryToItem e).date.utcOffset = 0
    ∧ (entryToItem e).date.year = e.published.year
    ∧ (entryToItem e).date.month = e.published.month
    ∧ (entryToItem e).date.day = e.published.day
    ∧ (entryToItem e).date.hour = e.published.hour
    ∧ (entryToItem e).date.minute = e.published.minute
    ∧ (entryToItem e).date.second = e.published.second
    ∧ (entryToItem e).date.toEpoch = e.published.toEpoch + e.published.utcOffset := by
  refine ⟨rfl, rfl, rfl, rfl, rfl, rfl, rfl, ?_⟩
  simp only [entryToItem, replaceTzUTC, PyDateTime.toEpoch]
  omega

/-!
URL path extraction.  app.py uses urllib.parse.urlparse(...).path and
os.path.basename.  The model below covers the http(s) URLs the program
handles: the fragment (after the first hash sign) and the query (after the
first question mark) are removed, a scheme-and-netloc part up to and
including the first slash after "://" is skipped when present, and the
parameters (a semicolon part of the last path segment) are split off, as
urlparse does for every scheme.
-/

/-- dropThroughSub pat l scans l for the first occurrence of the sublist
pat and returns the remainder after it, or none when pat never occurs. -/
def dropThroughSub (pat : List Char) : List Char → Option (List Char)
  | [] => if listStartsWith pat [] then some [] else none
  | c :: rest =>
    if listStartsWith pat (c :: rest) then some ((c :: rest).drop pat.length)
    else dropThroughSub pat rest

/-- The params split urlparse applies to the path: the part of the last
slash-separated segment from its first semicolon on is removed. -/
def splitParamsChars (l : List Char) : List Char :=
  if l.contains '/' then
    let lastSeg := (l.reverse.takeWhile (fun x => x ≠ '/')).reverse
    let before := l.take (l.length - lastSeg.length)
    before ++ lastSeg.takeWhile (fun x => x ≠ ';')
  else l.takeWhile (fun x => x ≠ ';')

/-- Model of urlparse(url).path for the URLs the program handles. -/
def urlparsePath (url : String) : String :=
  let l := url.data.takeWhile (fun x => x ≠ '#')
  let l := l.takeWhile (fun x => x ≠ '?')
  let l := match dropThroughSub ("://".data) l with
    | none => l
    | some rest => rest.dropWhile (fun x => x ≠ '/')
  String.mk (splitParamsChars l)

/-- os.path.basename on a POSIX path: everything after the last slash. -/
def osPathBasename (p : String) : String :=
  String.mk (p.data.reverse.takeWhile (fun x => x ≠ '/')).reverse

/-- Numeric value of one hexadecimal digit, when the character is one. -/
def hexDigitVal (c : Char) : Option Nat :=
  if '0' ≤ c ∧ c ≤ '9' then some (c.toNat - 48)
  else if 'a' ≤ c ∧ c ≤ 'f' then some (c.toNat - 87)
  else if 'A' ≤ c ∧ c ≤ 'F' then some (c.toNat - 55)
  else none

/-- Model of urllib.parse.unquote on the character list: a percent sign
followed by two hexadecimal digits becomes the byte they denote, anything
else is kept verbatim (an invalid escape stays as written).  Each decoded
byte is represented as one character, which matches Python exactly on
ASCII data. -/
def unquoteChars : List Char → List Char
  | [] => []
  | '%' :: h1 :: h2 :: rest =>
    match hexDigitVal h1, hexDigitVal h2 with
    | some a, some b => Char.ofNat (16 * a + b) :: unquoteChars rest
    | _, _ => '%' :: unquoteChars (h1 :: h2 :: rest)
  | c :: rest => c :: unquoteChars rest

/-- urllib.parse.unquote as a String function. -/
def pyUnquote (s : String) : String := String.mk (unquoteChars s.data)

/-- Decimal rendering of n zero-padded on the left to width w, as the
strftime numeric directives produce. -/
def padNat (w n : Nat) : String :=
  let s := Nat.repr n
  String.mk (List.replicate (w - s.length) '0') ++ s

/-- post_date.strftime("%Y-%m-%d") on the wall-clock fields. -/
def strftimeYMD (t : PyDateTime) : String :=
  padNat 4 t.year ++ "-" ++ padNat 2 t.month ++ "-" ++ padNat 2 t.day

/-- generate_filename from app.py: the basename of the parsed image URL
path, percent-decoded, prefixed by the formatted date, the index and the
counter, joined with hyphens. -/
def generate_filename (image_url : String) (post_date : PyDateTime)
    (index : String) (count : Nat) : String :=
  let filename := osPathBasename (urlparsePath image_url)
  let decoded_filename := pyUnquote filename
  let date_str := strftimeYMD post_date
  date_str ++ "-" ++ index ++ "-" ++ Nat.repr count ++ "-" ++ decoded_filename

/-- Claim C7: generate_filename is a pure function of its four arguments
and always produces the date formatted YYYY-MM-DD, the index segment, the
counter and the percent-decoded basename of the image URL path, joined by
hyphens; the concrete instance shows the query being dropped and a %20
escape decoding to a space. -/
theorem c7_filename_format :
    (∀ (image_url : String) (post_date : PyDateTime) (index : String) (count : Nat),
      generate_filename image_url post_date index count
        = strftimeYMD post_date ++ "-" ++ index ++ "-" ++ Nat.repr count ++ "-"
          ++ pyUnquote (osPathBasename (urlparsePath image_url)))
    ∧ generate_filename "https://t1.daumcdn.net/cfile/tistory/my%20photo.jpg?original"
        ⟨2024, 1, 5, 3, 4, 5, 0⟩ "123" 2
        = "2024-01-05-123-2-my photo.jpg" := by
  refine ⟨fun _ _ _ _ => rfl, ?_⟩
  decide

/-- Python str.split(sep) for a single-character separator: empty pieces
are kept and the result always has at least one element. -/
def pySplitOn (sep : Char) : List Char → List (List Char)
  | [] => [[]]
  | c :: rest =>
    match pySplitOn sep rest with
    | [] => [[]]
    | s :: ss => if c = sep then [] :: s :: ss else (c :: s) :: ss

/-- extract_index_from_url from app.py: split the parsed path on slashes
and take the last segment, or the second-to-last when the last is empty.
none models the IndexError raised when the path is empty, since the split
then has a single empty segment and path_segments[-2] is out of range. -/
def extract_index_from_url (url : String) : Option String :=
  let path_segments := pySplitOn '/' (urlparsePath url).data
  match path_segments.reverse with
  | [] => none
  | s :: rest =>
    if s ≠ [] then some (String.mk s)
    else
      match rest with
      | [] => none
      | s2 :: _ => some (String.mk s2)

/-!
The download path.  The network is an oracle: fetchPage gives, for each
post URL, either a requests-level failure (a RequestException raised by
requests.get or raise_for_status) or the parsed page, reduced to its list
of figure.imageblock tags; each tag carries the data-url of its span when
one is present.  retrieveOk tells whether urlretrieve succeeds on an image
URL.  now is datetime.now(pytz.UTC).  The filesystem state is the cache
file plus the list of image paths written, in order; directory creation by
os.makedirs is not tracked, no claim concerns it.
-/

structure Figure where
  spanDataUrl : Option String
  deriving DecidableEq, Repr

inductive PageResult where
  | fetchErr : PageResult
  | ok : List Figure → PageResult
  deriving DecidableEq, Repr

structure Env where
  fetchPage : String → PageResult
  retrieveOk : String → Bool
  now : PyDateTime

structure FsState where
  cache : Option (List String)
  files : List String
  deriving DecidableEq, Repr

/-- The Python exceptions download_images can let escape: IndexError from
extract_index_from_url, AttributeError from calling .get on the None that
find returns for a figure without a data-url span, and the urllib errors
of urlretrieve.  None of these is a requests.exceptions.RequestException,
so none is caught by the handler in download_images. -/
inductive PyExn where
  | indexError : PyExn
  | attributeError : PyExn
  | urlError : PyExn
  deriving DecidableEq, Repr

/-- How one call to download_images ends: an early return on a cached URL,
a caught and logged fetch error, a normal completion, or an uncaught
exception propagating to the caller. -/
inductive DlOutcome where
  | skippedCached : DlOutcome
  | fetchErrorHandled : DlOutcome
  | completed : DlOutcome
  | raised : PyExn → DlOutcome
  deriving DecidableEq, Repr

/-- os.path.join for the two-argument POSIX case used on line 119. -/
def osPathJoin (folder name : String) : String :=
  if listStartsWith ['/'] name.data then name
  else if folder = "" then name
  else if strEndsWith folder "/" then folder ++ name
  else folder ++ "/" ++ name

/-- The date lookup of lines 107 to 111: the date of the first item whose
url matches, scanning in list order; an empty list also models
items_info=None, both make the loop find nothing. -/
def lookupDate : List Item → String → Option PyDateTime
  | [], _ => none
  | item :: rest, url => if item.url = url then some item.date else lookupDate rest url

/-- The for loop over figure tags, lines 117 to 122, from counter i: each
figure must have a span with a data-url (else AttributeError), the image
is retrieved (a failure raises a urllib error) and its path is recorded.
The result is the list of paths written before the loop finished or died,
together with the exception that escaped, if any. -/
def runFigures (env : Env) (output_folder : String) (post_date : PyDateTime)
    (index : String) : List Figure → Nat → List String × Option PyExn
  | [], _ => ([], none)
  | fig :: figs, i =>
    match fig.spanDataUrl with
    | none => ([], some PyExn.attributeError)
    | some image_url =>
      let image_path := osPathJoin output_folder (generate_filename image_url post_date index i)
      if env.retrieveOk image_url then
        let r := runFigures env output_folder post_date index figs (i + 1)
        (image_path :: r.1, r.2)
      else ([], some PyExn.urlError)

/-- download_images from app.py over the oracle and state model.  The
returned Bool records whether requests.get was executed for the post page
(a download attempt was made).  The except clause catches only
requests.exceptions.RequestException, i.e. exactly the fetchErr branch;
every other exception surfaces as a raised outcome, with the cache not
updated and the files already written kept. -/
def download_images (env : Env) (st : FsState) (url : String)
    (items_info : List Item) (output_folder : String) : FsState × DlOutcome × Bool :=
  if is_post_downloaded st.cache url then (st, DlOutcome.skippedCached, false)
  else
    match env.fetchPage url with
    | PageResult.fetchErr => (st, DlOutcome.fetchErrorHandled, true)
    | PageResult.ok figure_tags =>
      match extract_index_from_url url with
      | none => (st, DlOutcome.raised PyExn.indexError, true)
      | some index =>
        match runFigures env output_folder
            ((lookupDate items_info url).getD env.now) index figure_tags 1 with
        | (written, some e) =>
          (⟨st.cache, st.files ++ written⟩, DlOutcome.raised e, true)
        | (written, none) =>
          (⟨some (update_cache st.cache url), st.files ++ written⟩, DlOutcome.completed, true)

/-- A fixed timestamp standing for datetime.now(pytz.UTC) in the concrete
oracles below. -/
def dt0 : PyDateTime := ⟨2024, 1, 1, 0, 0, 0, 0⟩

/-- Oracle whose page fetch always raises a RequestException. -/
def envFailFetch : Env := ⟨fun _ => PageResult.fetchErr, fun _ => true, dt0⟩

/-- Oracle whose page fetch always succeeds with no figure.imageblock
tags. -/
def envNoFigures : Env := ⟨fun _ => PageResult.ok [], fun _ => true, dt0⟩

/-- Oracle whose page fetch yields two figures; retrieving the second
image fails with a urllib error. -/
def envTwoFigures : Env :=
  ⟨fun _ => PageResult.ok [Figure.mk (some "https://cdn.example/img1.jpg"),
      Figure.mk (some "https://cdn.example/bad.jpg")],
   fun v => v != "https://cdn.example/bad.jpg", dt0⟩

/-- Claim C1 counterexample: with an empty cache and a post whose page
fetch raises a network error, a first run attempts the download and
leaves the cache file untouched, so a second run attempts the very same
URL again; the URL is attempted twice across runs although the cache file
was never deleted or edited, refuting the at-most-once invariant as
stated. -/
theorem c1_counterexample :
    (download_images envFailFetch ⟨none, []⟩ "https://blog.example/2" [] "images").2.2 = true
    ∧ (download_images envFailFetch ⟨none, []⟩ "https://blog.example/2" [] "images").1
        = ⟨none, []⟩
    ∧ (download_images envFailFetch
        (download_images envFailFetch ⟨none, []⟩ "https://blog.example/2" [] "images").1
        "https://blog.example/2" [] "images").2.2 = true :=
  ⟨rfl, rfl, rfl⟩

/-- Claim C1 amended: a URL present in the cache makes download_images
return immediately with no page fetch, no files written and the cache
unchanged, and a URL absent from the cache always gets a page fetch; a
call that completes normally records the URL in the cache, so a
successfully downloaded post is attempted at most once across runs unless
the cache file is deleted or edited, while a post whose attempt fails is
left uncached and is re-attempted. -/
theorem c1_cache_gate (env : Env) (st : FsState) (url : String)
    (items_info : List Item) (output_folder : String) :
    (is_post_downloaded st.cache url = true →
      download_images env st url items_info output_folder
        = (st, DlOutcome.skippedCached, false))
    ∧ (is_post_downloaded st.cache url = false →
      (download_images env st url items_info output_folder).2.2 = true)
    ∧ (∀ (st2 : FsState) (b : Bool),
      download_images env st url items_info output_folder = (st2, DlOutcome.completed, b) →
      is_post_downloaded st2.cache url = true) := by
  refine ⟨?_, ?_, ?_⟩
  · intro h
    unfold download_images
    simp [h]
  · intro h
    unfold download_images
    simp only [h, Bool.false_eq_true, if_false]
    split
    · rfl
    · split
      · rfl
      · split
        · rfl
        · rfl
  · intro st2 b h
    unfold download_images at h
    split at h
    · simp at h
    · split at h
      · simp at h
      · split at h
        · simp at h
        · split at h
          · simp at h
          · rw [Prod.mk.injEq, Prod.mk.injEq] at h
            obtain ⟨h1, _, _⟩ := h
            rw [← h1]
            simp [is_post_downloaded, update_cache, List.contains, List.elem_iff]

/-- Witness for C1 amended: a cached URL is skipped without a fetch, an
uncached URL is fetched, and a completed call leaves the URL cached. -/
theorem c1_cache_gate_witness :
    download_images envNoFigures ⟨some ["https://blog.example/3"], []⟩
        "https://blog.example/3" [] "images"
      = (⟨some ["https://blog.example/3"], []⟩, DlOutcome.skippedCached, false)
    ∧ (download_images envNoFigures ⟨none, []⟩ "https://blog.example/3" [] "images").2.2 = true
    ∧ is_post_downloaded (some ["https://blog.example/3"]) "https://blog.example/3" = true :=
  ⟨(c1_cache_gate envNoFigures ⟨some ["https://blog.example/3"], []⟩
      "https://blog.example/3" [] "images").1 (by decide),
   (c1_cache_gate envNoFigures ⟨none, []⟩ "https://blog.example/3" [] "images").2.1 (by decide),
   (c1_cache_gate envNoFigures ⟨none, []⟩ "https://blog.example/3" [] "images").2.2
     ⟨some ["https://blog.example/3"], []⟩ true (by decide)⟩

/-- Claim C2: for an uncached URL whose page fetch raises a network error,
download_images catches the exception (the outcome is the handled, logged
return, not a raised one) and returns with the cache and the written
files exactly as they were; the fetch was attempted. -/
theorem c2_fetch_error_handled (env : Env) (st : FsState) (url : String)
    (items_info : List Item) (output_folder : String) :
    is_post_downloaded st.cache url = false →
    env.fetchPage url = PageResult.fetchErr →
    download_images env st url items_info output_folder
      = (st, DlOutcome.fetchErrorHandled, true) := by
  intro h1 h2
  unfold download_images
  simp [h1, h2]

/-- Witness for C2 at a concrete oracle and state. -/
theorem c2_fetch_error_handled_witness :
    download_images envFailFetch ⟨none, []⟩ "https://blog.example/4" [] "images"
      = (⟨none, []⟩, DlOutcome.fetchErrorHandled, true) :=
  c2_fetch_error_handled envFailFetch ⟨none, []⟩ "https://blog.example/4" [] "images" rfl rfl

/-- Claim C9 counterexample: a post URL with an empty path (for example
the bare blog address) is uncached and its page fetch succeeds with zero
matching figure tags, yet download_images does not record it in the
cache: extract_index_from_url raises IndexError first, which the handler
does not catch, so the call ends raised and the cache stays empty. -/
theorem c9_counterexample :
    is_post_downloaded (none : Option (List String)) "https://blog.example" = false
    ∧ envNoFigures.fetchPage "https://blog.example" = PageResult.ok []
    ∧ download_images envNoFigures ⟨none, []⟩ "https://blog.example" [] "images"
        = (⟨none, []⟩, DlOutcome.raised PyExn.indexError, true) := by
  refine ⟨rfl, rfl, ?_⟩
  decide

/-- Claim C9 amended: for every uncached post URL whose page fetch
succeeds with zero matching figure tags and whose post-index extraction
succeeds (the URL path is nonempty, so no IndexError), download_images
completes, writes no image files, and appends the URL to the cache. -/
theorem c9_no_figures_still_cached (env : Env) (st : FsState) (url : String)
    (items_info : List Item) (output_folder : String) (idx : String) :
    is_post_downloaded st.cache url = false →
    env.fetchPage url = PageResult.ok [] →
    extract_index_from_url url = some idx →
    download_images env st url items_info output_folder
      = (⟨some (update_cache st.cache url), st.files⟩, DlOutcome.completed, true) := by
  intro h1 h2 h3
  unfold download_images
  simp [h1, h2, h3, runFigures]

/-- Witness for C9 amended at a concrete oracle: the post with no images
is marked downloaded and no file is written. -/
theorem c9_no_figures_still_cached_witness :
    download_images envNoFigures ⟨none, []⟩ "https://blog.example/123" [] "images"
      = (⟨some ["https://blog.example/123"], []⟩, DlOutcome.completed, true) :=
  c9_no_figures_still_cached envNoFigures ⟨none, []⟩ "https://blog.example/123" [] "images"
    "123" rfl rfl (by decide)

lemma runFigures_fail (env : Env) (output_folder : String) (post_date : PyDateTime)
    (index : String) (u : String) (rest : List Figure)
    (hu : env.retrieveOk u = false) :
    ∀ (gs : List Figure) (i : Nat),
      (∀ f ∈ gs, ∃ v, f.spanDataUrl = some v ∧ env.retrieveOk v = true) →
      (runFigures env output_folder post_date index
          (gs ++ Figure.mk (some u) :: rest) i).2 = some PyExn.urlError
      ∧ (runFigures env output_folder post_date index
          (gs ++ Figure.mk (some u) :: rest) i).1.length = gs.length := by
  intro gs
  induction gs with
  | nil =>
    intro i _
    simp [runFigures, hu]
  | cons f fs ih =>
    intro i hall
    obtain ⟨v, hv, hvok⟩ := hall f (by simp)
    have hrec := ih (i + 1) (fun g hg => hall g (by simp [hg]))
    simp [runFigures, hv, hvok, hrec.1, hrec.2]

/-- Claim C10: when an uncached post fetches fine but urlretrieve fails on
one of its images (every earlier figure having a retrievable image), the
urllib error is not caught by the RequestException handler: the call ends
with that exception raised to the caller, the post URL is not added to
the cache, and exactly the images before the failing one remain written
on disk. -/
theorem c10_image_error_propagates (env : Env) (st : FsState) (url : String)
    (items_info : List Item) (output_folder : String)
    (gs : List Figure) (u : String) (rest : List Figure) (idx : String) :
    is_post_downloaded st.cache url = false →
    env.fetchPage url = PageResult.ok (gs ++ Figure.mk (some u) :: rest) →
    extract_index_from_url url = some idx →
    (∀ f ∈ gs, ∃ v, f.spanDataUrl = some v ∧ env.retrieveOk v = true) →
    env.retrieveOk u = false →
    ∃ written : List String,
      download_images env st url items_info output_folder
        = (⟨st.cache, st.files ++ written⟩, DlOutcome.raised PyExn.urlError, true)
      ∧ written.length = gs.length := by
  intro h1 h2 h3 hall hu
  have hr := runFigures_fail env output_folder
    ((lookupDate items_info url).getD env.now) idx u rest hu gs 1 hall
  cases hrf : runFigures env output_folder ((lookupDate items_info url).getD env.now) idx
      (gs ++ Figure.mk (some u) :: rest) 1 with
  | mk w e =>
    rw [hrf] at hr
    obtain ⟨he, hlen⟩ := hr
    subst he
    refine ⟨w, ?_, hlen⟩
    unfold download_images
    simp [h1, h2, h3, hrf]

/-- Witness for C10: two figures, the second image fails to retrieve; the
run ends raised, the cache stays empty and exactly one file was written. -/
theorem c10_image_error_propagates_witness :
    (download_images envTwoFigures ⟨none, []⟩ "https://blog.example/5" [] "images").2.1
        = DlOutcome.raised PyExn.urlError
    ∧ (download_images envTwoFigures ⟨none, []⟩ "https://blog.example/5" [] "images").1.cache
        = none
    ∧ (download_images envTwoFigures ⟨none, []⟩ "https://blog.example/5" [] "images").1.files.length
        = 1 := by
  obtain ⟨w, hEq, hLen⟩ :=
    c10_image_error_propagates envTwoFigures ⟨none, []⟩ "https://blog.example/5" [] "images"
      [Figure.mk (some "https://cdn.example/img1.jpg")] "https://cdn.example/bad.jpg" [] "5"
      rfl rfl (by decide)
      (by
        intro f hf
        simp only [List.mem_singleton] at hf
        exact ⟨"https://cdn.example/img1.jpg", by rw [hf], by decide⟩)
      (by decide)
  rw [hEq]
  refine ⟨rfl, rfl, ?_⟩
  simpa using hLen

end TistoryDl
